import Mathlib

/-!
Verification of the Sonic 3 A.I.R. autosplitter (src/src/lib.rs).

The development shallowly embeds the autosplitter's data model and logic:
* `Pair`/`updateW` model the asr crate's `Watcher`/`Pair` (external
  collaborator): `update_infallible` pushes the previous `current` into
  `old` and stores the new value; on the very first observation both
  fields hold the new value, so `changed` reports false, as the spec
  requires of the first tick.
* `Watchers`, `Settings` mirror the structs of lib.rs field by field.
* `Mem` models the attached process memory: `byte o` is the result of
  `process.read::<u8>(wram_base + o)` with a failed read already
  substituted by 0 (`.ok().unwrap_or_default()`); `% 256` encodes the u8
  width.  The u16 time-bonus read with `from_be` is the big-endian value
  of the two bytes at its offset.
* `deriveAct` is the composite-code match of `update_loop` (lines
  204-232), written as the equivalent chain of equality tests on the
  composite key; the u8 sum `temp_act + temp_zone * 10` wraps, hence the
  `% 256` on the key.
* `update_loop`, `start`, `split`, `reset` are direct translations of the
  functions of the same names.  Note that `start` reads
  `watchers.save_select` again at the point where lib.rs line 257 binds
  the name `save_slot` — the translation reproduces the source exactly.
* `tick` embeds one iteration of the loop body of `main` (lines 40-63).
  The host timer primitives are modelled at their interface: `reset()`
  leaves the timer NotRunning, `split()` never yields NotRunning, and the
  second `timer::state()` query of the tick observes the effect of a
  reset issued earlier in the same tick.
-/

namespace Sonic3AIR

/-- The asr watcher pair: previous (`old`) and `current` sample. -/
structure Pair (α : Type) where
  old : α
  current : α
deriving DecidableEq

/-- `Pair::changed()`: the two samples differ. -/
def Pair.changed {α : Type} [DecidableEq α] (p : Pair α) : Bool :=
  decide (p.old ≠ p.current)

/-- The `Levels` enum of lib.rs. -/
inductive Levels where
  | AngelIslandAct1
  | AngelIslandAct2
  | HydrocityAct1
  | HydrocityAct2
  | MarbleGardenAct1
  | MarbleGardenAct2
  | CarnivalNightAct1
  | CarnivalNightAct2
  | IceCapAct1
  | IceCapAct2
  | LaunchBaseAct1
  | LaunchBaseAct2
  | MushroomHillAct1
  | MushroomHillAct2
  | FlyingBatteryAct1
  | FlyingBatteryAct2
  | SandopolisAct1
  | SandopolisAct2
  | LavaReefAct1
  | LavaReefAct2
  | HiddenPalace
  | SkySanctuary
  | DeathEggAct1
  | DeathEggAct2
  | DoomsDay
  | Ending
deriving DecidableEq, Fintype

def STATE_SAVESELECT : Nat := 0x4C

def STATE_LOADING : Nat := 0x8C

def STATE_INGAME : Nat := 0x0C

def SAVESLOTSTATE_NEWGAME : Nat := 0x80

def SAVESLOTSTATE_INPROGRESS : Nat := 0x00

/-- The `Watchers` struct: each field is the watcher's `pair`,
`none` before the first observation. -/
structure Watchers where
  levelid : Option (Pair Levels)
  state : Option (Pair Nat)
  end_of_level_flag : Option (Pair Bool)
  game_ending_flag : Option (Pair Bool)
  time_bonus : Option (Pair Nat)
  save_select : Option (Pair Nat)
  zone_select : Option (Pair Nat)
  save_slot : Option (Pair Nat)
deriving DecidableEq

/-- `Watchers::default()`: no watcher has a sample yet. -/
def Watchers.init : Watchers :=
  { levelid := none, state := none, end_of_level_flag := none,
    game_ending_flag := none, time_bonus := none, save_select := none,
    zone_select := none, save_slot := none }

/-- The `Settings` struct of lib.rs (all toggles default to true). -/
structure Settings where
  start_nosave : Bool
  start_clean_save : Bool
  start_no_clean_save : Bool
  start_new_game_plus : Bool
  reset : Bool
  angel_island_1 : Bool
  angel_island_2 : Bool
  hydrocity_1 : Bool
  hydrocity_2 : Bool
  marble_garden_1 : Bool
  marble_garden_2 : Bool
  carnival_night_1 : Bool
  carnival_night_2 : Bool
  ice_cap_1 : Bool
  ice_cap_2 : Bool
  launch_base_1 : Bool
  launch_base_2 : Bool
  mushroom_hill_1 : Bool
  mushroom_hill_2 : Bool
  flying_battery_1 : Bool
  flying_battery_2 : Bool
  sandopolis_1 : Bool
  sandopolis_2 : Bool
  lava_reef_1 : Bool
  lava_reef_2 : Bool
  hidden_palace : Bool
  sky_sanctuary : Bool
  death_egg_1 : Bool
  death_egg_2 : Bool
  doomsday : Bool
deriving DecidableEq

/-- All toggles enabled (the declared defaults). -/
def allOn : Settings :=
  { start_nosave := true, start_clean_save := true, start_no_clean_save := true,
    start_new_game_plus := true, reset := true, angel_island_1 := true,
    angel_island_2 := true, hydrocity_1 := true, hydrocity_2 := true,
    marble_garden_1 := true, marble_garden_2 := true, carnival_night_1 := true,
    carnival_night_2 := true, ice_cap_1 := true, ice_cap_2 := true,
    launch_base_1 := true, launch_base_2 := true, mushroom_hill_1 := true,
    mushroom_hill_2 := true, flying_battery_1 := true, flying_battery_2 := true,
    sandopolis_1 := true, sandopolis_2 := true, lava_reef_1 := true,
    lava_reef_2 := true, hidden_palace := true, sky_sanctuary := true,
    death_egg_1 := true, death_egg_2 := true, doomsday := true }

/-- Process memory relative to `wram_base`: `byte o` is
`process.read::<u8>(wram_base + o).ok().unwrap_or_default()`. -/
structure Mem where
  byte : Nat → Nat

/-- `match pair { Some(x) => x.current, _ => d }`, the source's idiom for
reading a watcher's current value with a default. -/
def currentOr {α : Type} (p : Option (Pair α)) (d : α) : α :=
  match p with
  | some x => x.current
  | none => d

/-- `Watcher::update_infallible`: shift `current` into `old` and store the
new value; the first observation stores the value in both fields. -/
def updateW {α : Type} (p : Option (Pair α)) (v : α) : Option (Pair α) :=
  some { old := currentOr p v, current := v }

/-- The composite-code match of `update_loop` (lib.rs lines 204-232):
key 0 resolves to Angel Island Act 1 only when the level-started flag is
set, otherwise the previous act is kept; any key outside the table also
keeps the previous act. -/
def deriveAct (code : Nat) (level_started : Bool) (act : Levels) : Levels :=
  if code = 0 then (if level_started then Levels.AngelIslandAct1 else act)
  else if code = 1 then Levels.AngelIslandAct2
  else if code = 10 then Levels.HydrocityAct1
  else if code = 11 then Levels.HydrocityAct2
  else if code = 20 then Levels.MarbleGardenAct1
  else if code = 21 then Levels.MarbleGardenAct2
  else if code = 30 then Levels.CarnivalNightAct1
  else if code = 31 then Levels.CarnivalNightAct2
  else if code = 50 then Levels.IceCapAct1
  else if code = 51 then Levels.IceCapAct2
  else if code = 60 then Levels.LaunchBaseAct1
  else if code = 61 then Levels.LaunchBaseAct2
  else if code = 70 then Levels.MushroomHillAct1
  else if code = 71 then Levels.MushroomHillAct2
  else if code = 40 then Levels.FlyingBatteryAct1
  else if code = 41 then Levels.FlyingBatteryAct2
  else if code = 80 then Levels.SandopolisAct1
  else if code = 81 then Levels.SandopolisAct2
  else if code = 90 then Levels.LavaReefAct1
  else if code = 91 ∨ code = 220 then Levels.LavaReefAct2
  else if code = 221 then Levels.HiddenPalace
  else if code = 100 ∨ code = 101 then Levels.SkySanctuary
  else if code = 110 then Levels.DeathEggAct1
  else if code = 111 ∨ code = 230 then Levels.DeathEggAct2
  else if code = 120 then Levels.DoomsDay
  else if code = 131 then Levels.Ending
  else act

/-- `update_loop` (lib.rs lines 174-243). -/
def update_loop (w : Watchers) (m : Mem) : Watchers :=
  let state0 := currentOr w.state 0
  let save_slot0 := currentOr w.save_slot 0
  let save_select := m.byte 0xEF4B % 256
  let cstate := m.byte 0xF600 % 256
  let state := if cstate ≠ STATE_INGAME then cstate else state0
  let save_slot :=
    if cstate ≠ STATE_INGAME ∧ save_select > 0 ∧ save_select ≤ 8 then
      m.byte (0xE6AC + 0xA * (save_select - 1)) % 256
    else save_slot0
  let zone_select0 := currentOr w.zone_select 0
  let zone_select :=
    if save_select > 0 ∧ save_select ≤ 8 then
      m.byte (0xB15F + 0x4A * (save_select - 1)) % 256
    else zone_select0
  let act0 := currentOr w.levelid Levels.AngelIslandAct1
  let temp_act := m.byte 0xEE4F % 256
  let temp_zone := m.byte 0xEE4E % 256
  let level_started := m.byte 0xF711 % 256 != 0
  let act := deriveAct ((temp_act + temp_zone * 10) % 256) level_started act0
  { levelid := updateW w.levelid act
    state := updateW w.state state
    end_of_level_flag := updateW w.end_of_level_flag (m.byte 0xFAA8 % 256 != 0)
    game_ending_flag := updateW w.game_ending_flag (m.byte 0xEF72 % 256 != 0)
    time_bonus := updateW w.time_bonus ((m.byte 0xF7D2 % 256) * 256 + m.byte 0xF7D3 % 256)
    save_select := updateW w.save_select save_select
    zone_select := updateW w.zone_select zone_select
    save_slot := updateW w.save_slot save_slot }

/-- `start` (lib.rs lines 245-269).  Line 257 of the source reads
`watchers.save_select` (not `watchers.save_slot`) into a binding named
`save_slot`; the translation reproduces that read faithfully. -/
def start (w : Watchers) (s : Settings) : Bool :=
  match w.state with
  | none => false
  | some state =>
    if state.old = STATE_SAVESELECT ∧ state.current = STATE_LOADING then
      match w.save_select with
      | none => false
      | some save_select =>
        if save_select.current = 0 then s.start_nosave
        else
          match w.zone_select with
          | none => false
          | some zone_select =>
            if zone_select.current = 0 then
              match w.save_select with
              | none => false
              | some save_slot =>
                if save_slot.old = SAVESLOTSTATE_INPROGRESS then s.start_no_clean_save
                else if save_slot.old = SAVESLOTSTATE_NEWGAME then s.start_clean_save
                else if s.start_new_game_plus then true
                else false
            else false
    else false

/-- `split` (lib.rs lines 271-322). -/
def split (w : Watchers) (s : Settings) : Bool :=
  match w.levelid with
  | none => false
  | some act =>
    match w.game_ending_flag with
    | none => false
    | some game_ending_flag =>
      if act.current = Levels.AngelIslandAct1 then false
      else if s.sky_sanctuary ∧ act.current = Levels.SkySanctuary ∧
          game_ending_flag.current ∧ ¬game_ending_flag.old then true
      else
        match w.time_bonus with
        | none => false
        | some time_bonus =>
          match w.end_of_level_flag with
          | none => false
          | some end_level_flag =>
            if s.death_egg_2 ∧ act.old = Levels.DeathEggAct2 ∧ time_bonus.old ≠ 0 ∧
                time_bonus.current = 0 ∧ end_level_flag.current then true
            else
              (act.old != act.current) &&
                (match act.old with
                  | Levels.AngelIslandAct1 => s.angel_island_1 && end_level_flag.old
                  | Levels.AngelIslandAct2 => s.angel_island_2
                  | Levels.HydrocityAct1 => s.hydrocity_1
                  | Levels.HydrocityAct2 => s.hydrocity_2
                  | Levels.MarbleGardenAct1 => s.marble_garden_1
                  | Levels.MarbleGardenAct2 => s.marble_garden_2
                  | Levels.CarnivalNightAct1 => s.carnival_night_1
                  | Levels.CarnivalNightAct2 => s.carnival_night_2
                  | Levels.IceCapAct1 => s.ice_cap_1
                  | Levels.IceCapAct2 => s.ice_cap_2
                  | Levels.LaunchBaseAct1 => s.launch_base_1
                  | Levels.LaunchBaseAct2 => s.launch_base_2
                  | Levels.MushroomHillAct1 => s.mushroom_hill_1
                  | Levels.MushroomHillAct2 => s.mushroom_hill_2
                  | Levels.FlyingBatteryAct1 => s.flying_battery_1
                  | Levels.FlyingBatteryAct2 => s.flying_battery_2
                  | Levels.SandopolisAct1 => s.sandopolis_1
                  | Levels.SandopolisAct2 => s.sandopolis_2
                  | Levels.LavaReefAct1 => s.lava_reef_1
                  | Levels.LavaReefAct2 => s.lava_reef_2
                  | Levels.HiddenPalace => s.hidden_palace
                  | Levels.SkySanctuary => s.sky_sanctuary
                  | Levels.DeathEggAct1 => s.death_egg_1
                  | Levels.DeathEggAct2 => s.death_egg_2
                  | Levels.DoomsDay => s.doomsday
                  | Levels.Ending => false)

/-- `reset` (lib.rs lines 324-339). -/
def reset (w : Watchers) (s : Settings) : Bool :=
  match w.save_select with
  | none => false
  | some save_select =>
    if save_select.current = 0 then
      match w.state with
      | none => false
      | some state =>
        if state.old = STATE_SAVESELECT ∧ state.current = STATE_LOADING then s.reset
        else false
    else if save_select.current > 0 ∧ save_select.current ≤ 8 ∧
        save_select.changed = false then
      match w.save_slot with
      | none => false
      | some save_slot =>
        if save_slot.old ≠ SAVESLOTSTATE_NEWGAME ∧
            save_slot.current = SAVESLOTSTATE_NEWGAME then s.reset
        else false
    else false

/-- The host timer's state machine (asr `TimerState`). -/
inductive TimerState where
  | NotRunning
  | Running
  | Paused
  | Ended
deriving DecidableEq

/-- A host timer primitive invoked during a tick. -/
inductive TimerAction where
  | start
  | split
  | reset
deriving DecidableEq

/-- One iteration of the loop body of `main` (lib.rs lines 40-63): run
`update_loop`, then, when the timer is Running or Paused, try `reset`
first and `split` only if `reset` returned false; finally query the timer
state again and try `start` when it is NotRunning.  Host timer modelling:
`timer::reset()` leaves the timer NotRunning, `timer::split()` never
leaves it NotRunning, so only an issued reset changes the outcome of the
second state query. -/
def tick (w : Watchers) (m : Mem) (s : Settings) (ts : TimerState) :
    Watchers × TimerState × List TimerAction :=
  let w2 := update_loop w m
  let p :=
    if ts = TimerState.Running ∨ ts = TimerState.Paused then
      if reset w2 s then (TimerState.NotRunning, [TimerAction.reset])
      else if split w2 s then (ts, [TimerAction.split])
      else (ts, ([] : List TimerAction))
    else (ts, ([] : List TimerAction))
  let acts2 := if p.1 = TimerState.NotRunning ∧ start w2 s then [TimerAction.start] else []
  (w2, p.1, p.2 ++ acts2)

/-- The composite codes that appear as match arms of the table
(lib.rs lines 204-232), in source order. -/
def tableKeys : List Nat :=
  [0, 1, 10, 11, 20, 21, 30, 31, 50, 51, 60, 61, 70, 71, 40, 41, 80, 81,
   90, 91, 220, 221, 100, 101, 110, 111, 230, 120, 131]

/-- A composite code outside the table keeps the previous act. -/
theorem deriveAct_of_not_mem (c : Nat) (f : Bool) (a : Levels)
    (h : c ∉ tableKeys) : deriveAct c f a = a := by
  simp only [tableKeys, List.mem_cons, List.not_mem_nil, or_false] at h
  push_neg at h
  obtain ⟨h0, h1, h2, h3, h4, h5, h6, h7, h8, h9, h10, h11, h12, h13, h14,
    h15, h16, h17, h18, h19, h20, h21, h22, h23, h24, h25, h26, h27, h28⟩ := h
  simp [deriveAct, h0, h1, h2, h3, h4, h5, h6, h7, h8, h9, h10, h11, h12,
    h13, h14, h15, h16, h17, h18, h19, h20, h21, h22, h23, h24, h25, h26, h27, h28]

/-- Applying the table twice with the same code and flag is the same as
applying it once. -/
theorem deriveAct_idem (c : Nat) (f : Bool) (old : Levels) :
    deriveAct c f (deriveAct c f old) = deriveAct c f old := by
  by_cases h : c ∈ tableKeys
  · fin_cases h <;> first | rfl | (cases f <;> rfl)
  · rw [deriveAct_of_not_mem c f old h]
    exact deriveAct_of_not_mem c f old h

/-- The composite codes (u8 values) whose table arm selects zone `L`
whatever the previous act was: the codes the table maps to `L`. -/
def codesFor (L : Levels) : Finset (Fin 256) :=
  Finset.univ.filter fun c => ∀ old : Levels, deriveAct c.val true old = L

/-- Snapshot meeting C1's hypotheses: filtered state went from
save-select (0x4C) to loading (0x8C), save slot 3 is selected (and was
selected on the previous tick), zone selection 0, and the previous
save-slot STATUS byte is the new-game sentinel 0x80. -/
def wC1 : Watchers :=
  { Watchers.init with
    state := some ⟨STATE_SAVESELECT, STATE_LOADING⟩,
    save_select := some ⟨3, 3⟩,
    zone_select := some ⟨0, 0⟩,
    save_slot := some ⟨SAVESLOTSTATE_NEWGAME, SAVESLOTSTATE_NEWGAME⟩ }

/-- All toggles on except the new-game-plus start toggle. -/
def sC1 : Settings := { allOn with start_new_game_plus := false }

/-- C1: at a snapshot satisfying every hypothesis of the claim (state
0x4C→0x8C, save-slot selection 3 ∈ [1,8], zone selection 0, previous
save-slot status = 0x80) with the clean-save toggle on and the new-game+
toggle off, `start` returns false.  The claim (and the spec) say the
previous status 0x80 selects the clean-save toggle, so `start` should
return true here; the code instead branches on the previous save-slot
SELECTION index, because lib.rs line 257 reads `watchers.save_select`
into a binding named `save_slot` and compares it against the
`SAVESLOTSTATE_*` status constants. -/
theorem C1_start_consults_selection_not_status :
    wC1.state = some ⟨STATE_SAVESELECT, STATE_LOADING⟩ ∧
    wC1.save_select = some ⟨3, 3⟩ ∧
    wC1.zone_select = some ⟨0, 0⟩ ∧
    wC1.save_slot = some ⟨SAVESLOTSTATE_NEWGAME, SAVESLOTSTATE_NEWGAME⟩ ∧
    sC1.start_clean_save = true ∧
    start wC1 sC1 = false := by
  decide

set_option maxRecDepth 20000 in
set_option maxHeartbeats 4000000 in
/-- C2 counterexample: the table maps exactly one composite code (221) to
Hidden Palace, not two as the claim states. -/
theorem C2_hidden_palace_has_one_code :
    codesFor Levels.HiddenPalace = {(221 : Fin 256)} ∧
    (codesFor Levels.HiddenPalace).card ≠ 2 := by
  decide

set_option maxRecDepth 20000 in
set_option maxHeartbeats 16000000 in
/-- C2 (amended): the table covers all 25 zones plus Ending (every
`Levels` value is selected by some composite code), maps exactly one
composite code to Hidden Palace, and maps exactly one pair of composite
codes (111 and 230) to Death Egg Act 2. -/
theorem C2_table_coverage :
    (∀ L : Levels, (codesFor L).Nonempty) ∧
    (codesFor Levels.HiddenPalace).card = 1 ∧
    (codesFor Levels.DeathEggAct2).card = 2 ∧
    (111 : Fin 256) ∈ codesFor Levels.DeathEggAct2 ∧
    (230 : Fin 256) ∈ codesFor Levels.DeathEggAct2 := by
  decide

/-- C3: `split` never returns true while the current zone is Angel Island
Act 1, whatever the other watcher values and toggles are. -/
theorem C3_no_split_on_angel_island_1 (w : Watchers) (s : Settings)
    (act : Pair Levels) (h : w.levelid = some act)
    (hc : act.current = Levels.AngelIslandAct1) :
    split w s = false := by
  cases hg : w.game_ending_flag with
  | none => simp [split, h, hg]
  | some g => simp [split, h, hg, hc]

/-- Snapshot with current zone Angel Island Act 1 and stale previous zone
Angel Island Act 2. -/
def wC3 : Watchers :=
  { Watchers.init with
    levelid := some ⟨Levels.AngelIslandAct2, Levels.AngelIslandAct1⟩ }

/-- C3 witness: at a concrete snapshot whose current zone is Angel Island
Act 1, `split` returns false with every toggle enabled. -/
theorem C3_no_split_on_angel_island_1_witness : split wC3 allOn = false :=
  C3_no_split_on_angel_island_1 wC3 allOn
    ⟨Levels.AngelIslandAct2, Levels.AngelIslandAct1⟩ rfl rfl

/-- Snapshot meeting every condition C4 lists (previous zone Death Egg
Act 2, time bonus 5 → 0, end-of-level flag true, toggle on) whose current
zone is Angel Island Act 1. -/
def wC4a : Watchers :=
  { Watchers.init with
    levelid := some ⟨Levels.DeathEggAct2, Levels.AngelIslandAct1⟩,
    game_ending_flag := some ⟨false, false⟩,
    time_bonus := some ⟨5, 0⟩,
    end_of_level_flag := some ⟨false, true⟩ }

/-- The same conditions with the game-ending-flag watcher still empty. -/
def wC4b : Watchers :=
  { wC4a with
    levelid := some ⟨Levels.DeathEggAct2, Levels.DeathEggAct2⟩,
    game_ending_flag := none }

/-- C4 counterexample: two snapshots satisfy every condition the claim
lists (previous zone Death Egg Act 2, previous time bonus 5, current time
bonus 0, current end-of-level flag true, Death Egg Act 2 toggle enabled)
yet `split` returns false: one whose current zone is Angel Island Act 1
(the guard of lib.rs line 276 fires first) and one whose game-ending-flag
watcher has no sample yet (the guard of line 273). -/
theorem C4_counterexample :
    (wC4a.levelid = some ⟨Levels.DeathEggAct2, Levels.AngelIslandAct1⟩ ∧
      wC4a.time_bonus = some ⟨5, 0⟩ ∧
      wC4a.end_of_level_flag = some ⟨false, true⟩ ∧
      allOn.death_egg_2 = true ∧
      split wC4a allOn = false) ∧
    (wC4b.levelid = some ⟨Levels.DeathEggAct2, Levels.DeathEggAct2⟩ ∧
      wC4b.time_bonus = some ⟨5, 0⟩ ∧
      wC4b.end_of_level_flag = some ⟨false, true⟩ ∧
      wC4b.game_ending_flag = none ∧
      split wC4b allOn = false) := by
  decide

/-- C4 (amended): with previous zone Death Egg Act 2, previous time bonus
5, current time bonus 0, current end-of-level flag true and the Death Egg
Act 2 toggle enabled, `split` returns true — provided the current zone is
not Angel Island Act 1 and the game-ending-flag watcher has a sample
pair.  No per-zone transition condition is consulted. -/
theorem C4_death_egg_time_bonus_split (w : Watchers) (s : Settings)
    (act : Pair Levels) (g : Pair Bool) (tb : Pair Nat) (eol : Pair Bool)
    (ha : w.levelid = some act) (hao : act.old = Levels.DeathEggAct2)
    (hac : act.current ≠ Levels.AngelIslandAct1)
    (hg : w.game_ending_flag = some g)
    (ht : w.time_bonus = some tb) (hto : tb.old = 5) (htc : tb.current = 0)
    (he : w.end_of_level_flag = some eol) (hec : eol.current = true)
    (hs : s.death_egg_2 = true) :
    split w s = true := by
  simp only [split, ha, hg, ht, he]
  rw [if_neg hac]
  split_ifs with h1 h2
  · rfl
  · rfl
  · exact absurd ⟨hs, hao, by simp [hto], htc, hec⟩ h2

/-- Snapshot for the C4 witness: previous zone Death Egg Act 2, current
zone Death Egg Act 2, time bonus 5 → 0, end-of-level flag true. -/
def wC4c : Watchers :=
  { wC4a with levelid := some ⟨Levels.DeathEggAct2, Levels.DeathEggAct2⟩ }

/-- C4 witness: the amended statement at a concrete snapshot. -/
theorem C4_death_egg_time_bonus_split_witness : split wC4c allOn = true :=
  C4_death_egg_time_bonus_split wC4c allOn
    ⟨Levels.DeathEggAct2, Levels.DeathEggAct2⟩ ⟨false, false⟩ ⟨5, 0⟩ ⟨false, true⟩
    rfl rfl (by decide) rfl rfl rfl rfl rfl rfl rfl

/-- C5: each predicate returns false whenever a watcher pair it consults
is still absent: `start` needs the state and save-selection pairs always
and the zone-selection pair on its in-range branch; `split` needs the
zone and game-ending pairs always and the time-bonus and end-of-level
pairs once the first two guards fall through; `reset` needs the
save-selection pair always, the state pair on its slot-0 branch and the
save-slot pair on its in-range branch. -/
theorem C5_absent_pair_gives_false (w : Watchers) (s : Settings) :
    (w.state = none → start w s = false) ∧
    (w.save_select = none → start w s = false) ∧
    (w.save_select = none → reset w s = false) ∧
    (w.levelid = none → split w s = false) ∧
    (w.game_ending_flag = none → split w s = false) ∧
    (∀ st ss : Pair Nat, w.state = some st → st.old = STATE_SAVESELECT →
      st.current = STATE_LOADING → w.save_select = some ss → ss.current ≠ 0 →
      w.zone_select = none → start w s = false) ∧
    (∀ ss : Pair Nat, w.save_select = some ss → ss.current = 0 →
      w.state = none → reset w s = false) ∧
    (∀ ss : Pair Nat, w.save_select = some ss → ss.current ≠ 0 →
      w.save_slot = none → reset w s = false) ∧
    (∀ (act : Pair Levels) (g : Pair Bool), w.levelid = some act →
      w.game_ending_flag = some g → act.current ≠ Levels.AngelIslandAct1 →
      ¬(s.sky_sanctuary = true ∧ act.current = Levels.SkySanctuary ∧
        g.current = true ∧ ¬g.old = true) →
      w.time_bonus = none ∨ w.end_of_level_flag = none → split w s = false) := by
  refine ⟨?_, ?_, ?_, ?_, ?_, ?_, ?_, ?_, ?_⟩
  · intro h; simp [start, h]
  · intro h
    cases hst : w.state with
    | none => simp [start, hst]
    | some st => simp [start, hst, h]
  · intro h; simp [reset, h]
  · intro h; simp [split, h]
  · intro h
    cases ha : w.levelid with
    | none => simp [split, ha]
    | some act => simp [split, ha, h]
  · intro st ss hst hold hcur hss hssc hz
    simp [start, hst, hold, hcur, hss, hssc, hz, STATE_SAVESELECT, STATE_LOADING]
  · intro ss hss hssc h
    simp [reset, hss, hssc, h]
  · intro ss hss hssc h
    simp [reset, hss, hssc, h]
  · intro act g ha hg hac hnsky hnone
    simp only [split, ha, hg]
    rw [if_neg hac, if_neg hnsky]
    rcases hnone with h | h
    · simp [h]
    · cases htb : w.time_bonus with
      | none => simp
      | some tb => simp [h]

/-- C8: feeding the same act byte, zone byte and level-started flag into
the zone derivation on successive ticks leaves the derived zone equal to
the value derived on the first tick, for every starting zone. -/
theorem C8_zone_derivation_idempotent (a z : Nat) (f : Bool) (old : Levels) (n : Nat) :
    (deriveAct ((a % 256 + (z % 256) * 10) % 256) f)^[n + 1] old =
      deriveAct ((a % 256 + (z % 256) * 10) % 256) f old := by
  induction n with
  | zero => rfl
  | succ k ih => rw [Function.iterate_succ_apply', ih, deriveAct_idem]

/-- C6: in every update pass, if the freshly read raw state byte is the
in-game sentinel 0x0C, the value pushed into the state watcher is the
previous filtered state (0 when none exists yet) and the value pushed
into the save-slot watcher is likewise the previous one; if the raw state
differs from the sentinel, the pushed filtered state is the raw value. -/
theorem C6_filtered_state_retention (w : Watchers) (m : Mem) :
    (m.byte 0xF600 % 256 = STATE_INGAME →
      (update_loop w m).state = updateW w.state (currentOr w.state 0) ∧
      (update_loop w m).save_slot = updateW w.save_slot (currentOr w.save_slot 0)) ∧
    (m.byte 0xF600 % 256 ≠ STATE_INGAME →
      (update_loop w m).state = updateW w.state (m.byte 0xF600 % 256)) := by
  constructor
  · intro h
    constructor
    · simp [update_loop, h]
    · simp [update_loop, h]
  · intro h
    simp [update_loop, h]

/-- C7: with the save-slot selection in [1,8] and unchanged this tick,
the save-slot status moving from a non-sentinel value to the new-game
sentinel 0x80, and the reset toggle on, `reset` returns true. -/
theorem C7_reset_on_new_game_sentinel (w : Watchers) (s : Settings)
    (ss sl : Pair Nat) (h1 : w.save_select = some ss) (h2 : 1 ≤ ss.current)
    (h3 : ss.current ≤ 8) (h4 : ss.old = ss.current) (h5 : w.save_slot = some sl)
    (h6 : sl.old ≠ SAVESLOTSTATE_NEWGAME) (h7 : sl.current = SAVESLOTSTATE_NEWGAME)
    (h8 : s.reset = true) : reset w s = true := by
  simp only [reset, h1, h5]
  split_ifs with hA hB hC
  · exact absurd hA (by omega)
  · exact h8
  · exact absurd ⟨h6, h7⟩ hC
  · exact absurd ⟨by omega, h3, by simp [Pair.changed, h4]⟩ hB

/-- Snapshot for the C7 witness: slot 3 selected on both ticks, its
status byte moving from in-progress 0x00 to the new-game sentinel. -/
def wC7 : Watchers :=
  { Watchers.init with
    save_select := some ⟨3, 3⟩,
    save_slot := some ⟨0, SAVESLOTSTATE_NEWGAME⟩ }

/-- C7 witness: the statement at a concrete snapshot. -/
theorem C7_reset_on_new_game_sentinel_witness : reset wC7 allOn = true :=
  C7_reset_on_new_game_sentinel wC7 allOn ⟨3, 3⟩ ⟨0, SAVESLOTSTATE_NEWGAME⟩
    rfl (by decide) (by decide) rfl rfl (by decide) rfl rfl

/-- C9: in a tick whose timer is Running or Paused, a true `reset`
pre-empts `split` (the split primitive is not invoked and the reset
primitive is); the split primitive is invoked exactly when the timer was
Running or Paused, `reset` returned false and `split` returned true; and
the start primitive is invoked exactly when `start` returned true and the
timer is NotRunning at the second query — either because it already was,
or because a reset was issued earlier in the same tick. -/
theorem C9_reset_preempts_split (w : Watchers) (m : Mem) (s : Settings)
    (ts : TimerState) :
    ((ts = TimerState.Running ∨ ts = TimerState.Paused) →
      reset (update_loop w m) s = true →
      TimerAction.split ∉ (tick w m s ts).2.2 ∧
        TimerAction.reset ∈ (tick w m s ts).2.2) ∧
    (TimerAction.split ∈ (tick w m s ts).2.2 ↔
      (ts = TimerState.Running ∨ ts = TimerState.Paused) ∧
        reset (update_loop w m) s = false ∧ split (update_loop w m) s = true) ∧
    (TimerAction.start ∈ (tick w m s ts).2.2 ↔
      start (update_loop w m) s = true ∧
        (ts = TimerState.NotRunning ∨
          ((ts = TimerState.Running ∨ ts = TimerState.Paused) ∧
            reset (update_loop w m) s = true))) := by
  cases ts <;>
    by_cases h2 : reset (update_loop w m) s = true <;>
    by_cases h3 : split (update_loop w m) s = true <;>
    by_cases h4 : start (update_loop w m) s = true <;>
    simp_all [tick]

/-- C10: whenever `start` returns true with save-slot selection 0 (the
no-save branch) and the reset toggle is enabled, `reset` returns true on
the very same snapshot: the no-save auto-start event and the slot-0 reset
event coincide. -/
theorem C10_nosave_start_implies_reset (w : Watchers) (s : Settings)
    (ss : Pair Nat) (h1 : start w s = true) (h2 : w.save_select = some ss)
    (h3 : ss.current = 0) (h4 : s.reset = true) :
    reset w s = true := by
  cases hst : w.state with
  | none =>
    simp only [start, hst] at h1
    exact absurd h1 (by decide)
  | some st =>
    by_cases htr : st.old = STATE_SAVESELECT ∧ st.current = STATE_LOADING
    · simp only [reset, h2]
      rw [if_pos h3]
      simp only [hst]
      rw [if_pos htr]
      exact h4
    · simp only [start, hst] at h1
      rw [if_neg htr] at h1
      simp at h1

/-- Snapshot for the C10 witness: filtered state 0x4C → 0x8C with no save
slot selected. -/
def wC10 : Watchers :=
  { Watchers.init with
    state := some ⟨STATE_SAVESELECT, STATE_LOADING⟩,
    save_select := some ⟨0, 0⟩ }

/-- C10 witness: the statement at a concrete snapshot. -/
theorem C10_nosave_start_implies_reset_witness : reset wC10 allOn = true :=
  C10_nosave_start_implies_reset wC10 allOn ⟨0, 0⟩ (by decide) rfl rfl rfl

end Sonic3AIR
